import Mathlib

/-!
Verification of the InterVue interview-session engine.

The definitions below are a shallow embedding of the JavaScript sources:
`src/server/interviewManager.js`, `src/server/server.js` and
`src/client/src/Interview.jsx`.  Conventions of the embedding:

* JS timestamps (`Date.now()`, ISO strings) are modelled as `Nat`
  milliseconds.
* An external generator call (`openai.chat.completions.create`) is modelled
  by an `Option String` argument: `none` means the call threw (network /
  provider failure), `some txt` means it resolved and
  `resp.choices?.[0]?.message?.content || ''` evaluated to `txt`.
* `JSON.parse` composed with field extraction is modelled by an explicit
  parse-function argument (`String → Option _`); the theorems quantify over
  it, so they hold for the real JSON parser in particular.  The
  `indexOf`/`slice` extraction that precedes `JSON.parse` in the source is
  modelled concretely (`extractJson`).
* JS number arithmetic in the client scorer is modelled as exact rational
  arithmetic with `Math.round x = ⌊x + 1/2⌋`.
* The process-wide `sessions` `Map` is modelled as an association list where
  `set` prepends; lookup takes the most recent binding, which matches the
  `Map.set`/`Map.get` semantics used by the code.
-/

namespace InterVue

/-- The character `{`, used by the `indexOf('{')` JSON-extraction step. -/
def openBrace : Char := Char.ofNat 123

/-- JS `String.prototype.toLowerCase` (per-character lowering). -/
def jsToLower (s : String) : String := String.mk (s.toList.map Char.toLower)

/-- Does the second list start with the first one (as a run of characters)? -/
def startsWithList : List Char → List Char → Bool
  | [], _ => true
  | _ :: _, [] => false
  | a :: as, b :: bs => a == b && startsWithList as bs

/-- Does the second list contain the first as a contiguous run?  Models the
substring test of JS `String.prototype.includes`. -/
def hasSubList (k : List Char) : List Char → Bool
  | [] => startsWithList k []
  | c :: t => startsWithList k (c :: t) || hasSubList k t

/-- JS `s.includes(k)`. -/
def jsIncludes (s k : String) : Bool := hasSubList k.toList s.toList

/-- JS `s.startsWith(p)`. -/
def jsStartsWith (s p : String) : Bool := startsWithList p.toList s.toList

/-- JS `String.prototype.trim`. -/
def jsTrim (s : String) : String :=
  String.mk (((s.toList.dropWhile Char.isWhitespace).reverse.dropWhile
    Char.isWhitespace).reverse)

/-- JS `txt.split('\n')[0] || ''`: everything before the first newline. -/
def jsFirstLine (t : String) : String :=
  String.mk (t.toList.takeWhile (fun c => c ≠ '\n'))

/-- Characters from the first `{` onward, or `none` when there is no `{`. -/
def dropBeforeBrace : List Char → Option (List Char)
  | [] => none
  | c :: t => if c = openBrace then some (c :: t) else dropBeforeBrace t

/-- The `jsonStart = txt.indexOf('{'); jsonStart >= 0 ? txt.slice(jsonStart)
: txt` step that every generator call site performs before `JSON.parse`. -/
def extractJson (txt : String) : String :=
  match dropBeforeBrace txt.toList with
  | some l => String.mk l
  | none => txt

/-- JS `Math.round` on a rational: `Math.round` rounds half toward
positive infinity, which is exactly `⌊x + 1/2⌋`. -/
def jround (q : ℚ) : ℤ := ⌊q + 1 / 2⌋

/-- JS `joined.split(/\s+/).filter(Boolean)`: whitespace-delimited tokens. -/
def jsWords (s : String) : List String :=
  (s.split (fun c => c.isWhitespace)).filter (fun w => w ≠ "")

/-- Truthiness of an optional JS string (`undefined`, `null` and `''` are
falsy). -/
def jsTruthyStr : Option String → Bool
  | none => false
  | some s => s ≠ ""

/-! ## Server data model (`src/server/interviewManager.js`) -/

/-- A `{id, text, askedAt}` question record. -/
structure Question where
  id : String
  text : String
  askedAt : Nat
  deriving Repr, DecidableEq

/-- A `{questionId, transcript, ts}` answer record pushed by `addAnswer`. -/
structure Answer where
  questionId : String
  transcript : String
  ts : Nat
  deriving Repr, DecidableEq

/-- A recommendation object.  The `strengths`/`weaknesses` fields are
optional because the parse-failure fallback in `finalizeRecommendation`
builds an object without them. -/
structure Recommendation where
  recommendation : String
  score : ℤ
  summary : String
  strengths : Option (List String)
  weaknesses : Option (List String)
  deriving Repr, DecidableEq

/-- The mutable state of one `InterviewSession`. -/
structure InterviewSession where
  id : String
  role : String
  resume : String
  durationMin : Nat
  start : Option Nat
  endTime : Option Nat
  questions : List Question
  answers : List Answer
  keyPoints : List String
  recommendation : Option Recommendation
  ended : Bool
  deriving Repr, DecidableEq

/-- The `InterviewSession` constructor. -/
def InterviewSession.new (id role resume : String) (durationMin : Nat) :
    InterviewSession :=
  { id := id, role := role, resume := resume, durationMin := durationMin,
    start := none, endTime := none, questions := [], answers := [],
    keyPoints := [], recommendation := none, ended := false }

/-- `startNow()`: stamps `start` and `end = start + durationMin minutes`. -/
def InterviewSession.startNow (s : InterviewSession) (now : Nat) :
    InterviewSession :=
  { s with start := some now, endTime := some (now + s.durationMin * 60000) }

/-- `addQuestion(text)`: appends `{id: 'q_' + (length+1), text, askedAt}`. -/
def InterviewSession.addQuestion (s : InterviewSession) (text : String)
    (now : Nat) : InterviewSession × Question :=
  let q : Question :=
    { id := "q_" ++ Nat.repr (s.questions.length + 1), text := text,
      askedAt := now }
  ({ s with questions := s.questions ++ [q] }, q)

/-- `addAnswer(questionId, transcript)`: appends the record verbatim; the
source performs no validation of `questionId`. -/
def InterviewSession.addAnswer (s : InterviewSession)
    (questionId transcript : String) (now : Nat) :
    InterviewSession × Answer :=
  let a : Answer :=
    { questionId := questionId, transcript := transcript, ts := now }
  ({ s with answers := s.answers ++ [a] }, a)

/-- Fields of the JSON object `generateInitialQuestion` expects
(`question`, `key_topic`); absent fields are `none`. -/
structure InitialParsed where
  question : Option String
  key_topic : Option String
  deriving Repr, DecidableEq

/-- The deterministic default opening question text. -/
def defaultOpeningText (role : String) : String :=
  "Tell me about your experience relevant to the role of " ++ role ++ "."

/-- `generateInitialQuestion()`.  The whole body sits inside `try … catch`,
so a failed generator call (`resp = none`) or a failed parse yields the
default question and the method never throws.  On a successful parse a
truthy `key_topic` is appended to `keyPoints`. -/
def InterviewSession.generateInitialQuestion
    (jparse : String → Option InitialParsed) (s : InterviewSession)
    (resp : Option String) (now : Nat) : InterviewSession × Question :=
  match resp with
  | none =>
    (s, { id := "q_1", text := defaultOpeningText s.role, askedAt := now })
  | some txt =>
    match jparse (extractJson txt) with
    | none =>
      (s, { id := "q_1", text := defaultOpeningText s.role, askedAt := now })
    | some parsed =>
      let questionText :=
        match parsed.question with
        | some q => if q = "" then defaultOpeningText s.role else q
        | none => defaultOpeningText s.role
      let s1 :=
        match parsed.key_topic with
        | some kt =>
          if kt = "" then s
          else { s with keyPoints := s.keyPoints ++
            ["Starting topic: " ++ kt] }
        | none => s
      (s1, { id := "q_1", text := questionText, askedAt := now })

/-- Fields of the JSON object `requestFollowupAndKeypoints` expects. -/
structure FollowupParsed where
  followup : Option String
  key_points : Option (List String)
  deriving Repr, DecidableEq

/-- `requestFollowupAndKeypoints(lastAnswer)`.  The prompt construction
reads `questions[length-1].text`, which throws on an empty question list;
the generator call itself sits *outside* the `try`, so its failure also
escapes the method.  Both escaping cases are modelled as `none`.  Inside
the `try`: a truthy parsed `followup` is appended as a question and
`key_points` arrays are appended to `keyPoints`; on parse failure the first
line of the raw text is used as the follow-up (appended only when
non-empty). -/
def InterviewSession.requestFollowupAndKeypoints
    (jparse : String → Option FollowupParsed) (s : InterviewSession)
    (resp : Option String) (now : Nat) :
    Option (InterviewSession × FollowupParsed) :=
  if s.questions.isEmpty then none
  else
    match resp with
    | none => none
    | some txt =>
      match jparse (extractJson txt) with
      | some parsed =>
        let s1 :=
          match parsed.followup with
          | some f => if f = "" then s else (s.addQuestion f now).1
          | none => s
        let s2 :=
          match parsed.key_points with
          | some kps => { s1 with keyPoints := s1.keyPoints ++ kps }
          | none => s1
        some (s2, parsed)
      | none =>
        let followup := jsFirstLine txt
        let s1 := if followup = "" then s else (s.addQuestion followup now).1
        some (s1, { followup := some followup, key_points := some [] })

/-- `finalizeRecommendation()`.  The generator call sits *outside* the
`try`, so its failure (`resp = none`) escapes the method (modelled as
`none`); only the parse is guarded.  On parse success the parsed object is
stored; on parse failure the `{recommendation:'Undetermined', score:50,
summary: txt}` fallback is stored.  Either way `ended` is set. -/
def InterviewSession.finalizeRecommendation
    (jparse : String → Option Recommendation) (s : InterviewSession)
    (resp : Option String) : Option (InterviewSession × Recommendation) :=
  match resp with
  | none => none
  | some txt =>
    match jparse (extractJson txt) with
    | some parsed =>
      some ({ s with recommendation := some parsed, ended := true }, parsed)
    | none =>
      let fb : Recommendation :=
        { recommendation := "Undetermined", score := 50, summary := txt,
          strengths := none, weaknesses := none }
      some ({ s with recommendation := some fb, ended := true }, fb)

/-! ## Server event loop (`src/server/server.js`) -/

/-- Events the server emits back over the socket. -/
inductive ServerEvent where
  | session_created (sessionId : String) (start endTime : Option Nat)
      (firstQuestion : Question)
  | followup (q : Question)
  | finished (rec : Recommendation) (questions : List Question)
      (answers : List Answer) (keyPoints : List String)
  | error (message : String)
  deriving Repr, DecidableEq

/-- The process-wide `sessions` map, modelled as an association list where
`set` prepends and `get` takes the most recent binding. -/
def Store := List (String × InterviewSession)

instance : DecidableEq Store := by
  unfold Store
  exact inferInstance

/-- `sessions.get(id)`. -/
def storeGet (st : Store) (k : String) : Option InterviewSession :=
  (List.find? (fun p => p.1 == k) st).map (fun p => p.2)

/-- `sessions.set(id, session)`. -/
def storeSet (st : Store) (k : String) (v : InterviewSession) : Store :=
  (k, v) :: st

/-- What one socket-handler run produced: the updated store, the emitted
events, the number of generator invocations performed, and whether an
exception escaped the handler (an unhandled promise rejection — in which
case `events` holds only what was emitted before the throw). -/
structure HandlerResult where
  store : Store
  events : List ServerEvent
  genCalls : Nat
  crashed : Bool
  deriving DecidableEq

/-- The per-role default question pairs appended by `create_session` when
the resume is empty; in source order of `Object.keys(defaults)`. -/
def defaultRoleQuestions : List (String × List String) :=
  [("frontend",
    ["Describe a challenging UI you built and how you handled " ++
      "responsiveness and accessibility.",
     "How do you optimize page load performance and rendering in " ++
      "modern browsers?"]),
   ("backend",
    ["Describe a scalable backend system you designed and the " ++
      "trade-offs you made.",
     "How do you approach data modeling and performance for " ++
      "high-throughput services?"]),
   ("data",
    ["Tell me about a data pipeline you built and how you handled " ++
      "data quality.",
     "How do you validate and monitor model performance or data drift?"]),
   ("devops",
    ["Describe how you would design CI/CD for a microservices platform.",
     "How do you monitor and respond to production incidents?"]),
   ("product",
    ["How do you gather requirements and measure product success?",
     "Tell me about a time you prioritized competing stakeholder " ++
      "requests."])]

/-- `Object.keys(defaults).find(k => roleKey.includes(k))`. -/
def matchedDefault (role : String) : Option (String × List String) :=
  List.find? (fun p => jsIncludes (jsToLower role) p.1) defaultRoleQuestions

/-- The `create_session` handler.  `id = 's_' + Date.now()`; the session is
constructed, started, given its opening question (the generator failure
path is absorbed inside `generateInitialQuestion`, so the handler's `catch`
is unreachable), stored, and `session_created` is emitted.  *After* the
emit, when the resume is empty/whitespace and the lowercased role contains
one of the five default keys, the two default questions for the first
matching key are appended to the stored session (the `Map` holds the same
object, so the mutation is visible in the store). -/
def createSessionHandler (jparse : String → Option InitialParsed)
    (role resume : String) (durationMin : Nat) (genResp : Option String)
    (now : Nat) (store : Store) : HandlerResult :=
  let id := "s_" ++ Nat.repr now
  let s0 := (InterviewSession.new id role resume durationMin).startNow now
  let (s1, q) := s0.generateInitialQuestion jparse genResp now
  let s2 := { s1 with questions := s1.questions ++ [q] }
  let ev := ServerEvent.session_created id s2.start s2.endTime q
  let s3 :=
    if jsTrim resume = "" then
      match matchedDefault role with
      | some p => p.2.foldl (fun acc t => (acc.addQuestion t now).1) s2
      | none => s2
    else s2
  { store := storeSet store id s3, events := [ev], genCalls := 1,
    crashed := false }

/-- A placeholder for the JS `undefined` that
`session.questions[length-1]` would yield on an empty list (never reached
for sessions created by `create_session`). -/
def undefinedQuestion : Question := { id := "", text := "", askedAt := 0 }

/-- The canned follow-up the `candidate_answer` handler emits from its
`catch` branch (text verbatim from the source, including its mis-encoded
dash). -/
def cannedFollowupText : String :=
  "Thanks â€” next question: What challenges did you face on that " ++
    "project and how did you solve them?"

/-- The `candidate_answer` handler.  Unknown session: emit `error`.  Known
session: `addAnswer` runs first (the client-supplied `questionId` is stored
unvalidated), then `requestFollowupAndKeypoints`; on its success the
*latest* question (`questions[length-1]`) is emitted as the follow-up —
whether or not a new one was appended; if it threw (generator failure) the
`catch` emits the canned follow-up, keeping the already-appended answer. -/
def candidateAnswerHandler (jparse : String → Option FollowupParsed)
    (sessionId questionId transcript : String) (genResp : Option String)
    (now : Nat) (store : Store) : HandlerResult :=
  match storeGet store sessionId with
  | none =>
    { store := store, events := [ServerEvent.error "session not found"],
      genCalls := 0, crashed := false }
  | some session =>
    let s1 := (session.addAnswer questionId transcript now).1
    match s1.requestFollowupAndKeypoints jparse genResp now with
    | some (s2, _) =>
      let latestQ := (s2.questions.getLast?).getD undefinedQuestion
      { store := storeSet store sessionId s2,
        events := [ServerEvent.followup latestQ], genCalls := 1,
        crashed := false }
    | none =>
      { store := storeSet store sessionId s1,
        events := [ServerEvent.followup
          { id := "", text := cannedFollowupText, askedAt := now }],
        genCalls := 1, crashed := false }

/-- The `finish_interview` handler.  Unknown session: emit `error`.  Known
session: `finalizeRecommendation` runs *unconditionally* — there is no
`ended` guard and no `try` around the `await`, so a generator failure
crashes the handler before any event is emitted; otherwise the
recommendation (parsed or fallback) is stored and `finished` is emitted.
The Supabase write is fire-and-forget and not modelled. -/
def finishInterviewHandler (jparse : String → Option Recommendation)
    (sessionId : String) (genResp : Option String) (store : Store) :
    HandlerResult :=
  match storeGet store sessionId with
  | none =>
    { store := store, events := [ServerEvent.error "session not found"],
      genCalls := 0, crashed := false }
  | some session =>
    match session.finalizeRecommendation jparse genResp with
    | none =>
      { store := store, events := [], genCalls := 1, crashed := true }
    | some (s2, rec) =>
      { store := storeSet store sessionId s2,
        events := [ServerEvent.finished rec s2.questions s2.answers
          s2.keyPoints],
        genCalls := 1, crashed := false }

/-! ## Client orchestrator (`src/client/src/Interview.jsx`) -/

/-- A client-side question record `{id, text}` from the fallback bank. -/
structure CQuestion where
  id : String
  text : String
  deriving Repr, DecidableEq

/-- A `{questionId, transcript}` pair pushed into `localAnswersRef`.
`questionId` is `currentQuestion?.id`, hence optional. -/
structure LocalAnswer where
  questionId : Option String
  transcript : String
  deriving Repr, DecidableEq

/-- The client's role-keyed fallback question bank (`ROLE_QUESTIONS`). -/
def ROLE_QUESTIONS : List (String × List CQuestion) :=
  [("Frontend Engineer",
    [{ id := "f1", text := "Tell me about a recent frontend project you built. What were the main challenges?" },
    { id := "f2", text := "How do you optimize web performance? Provide concrete techniques you used." },
    { id := "f3", text := "Describe how you approach component design and state management." },
    { id := "f4", text := "How do you ensure accessibility in your apps?" },
    { id := "f5", text := "Explain a time you refactored a large component tree. What was your strategy?" },
    { id := "f6", text := "What bundling or build-time optimizations have you applied?" },
    { id := "f7", text := "How do you debug tricky layout or CSS issues?" },
    { id := "f8", text := "Describe how you write and maintain UI tests." },
    { id := "f9", text := "How do you collaborate with designers and product teams?" },
    { id := "f10", text := "Talk about a time you improved perceived performance for users." },
    { id := "f11", text := "What are your go-to patterns for state synchronization with a backend?" },
    { id := "f12", text := "How do you keep up with frontend architecture and tooling changes?" }]),
   ("Backend Engineer",
    [{ id := "b1", text := "Describe a backend system you designed for scale. What tradeoffs did you make?" },
    { id := "b2", text := "How do you ensure data integrity across distributed services?" },
    { id := "b3", text := "Explain how you would debug a performance hotspot in an API." },
    { id := "b4", text := "How do you approach schema design for changing requirements?" },
    { id := "b5", text := "Describe your caching strategy and invalidation approach." },
    { id := "b6", text := "What monitoring and alerting do you rely on for backend services?" },
    { id := "b7", text := "How do you design APIs for backward compatibility?" },
    { id := "b8", text := "Explain a complex database migration you executed." },
    { id := "b9", text := "How do you test and validate durability guarantees?" },
    { id := "b10", text := "Describe a time you reduced latency in a critical path." },
    { id := "b11", text := "What techniques do you use for secure authentication and authorization?" },
    { id := "b12", text := "How do you reason about cost and operational overhead?" }]),
   ("Fullstack Engineer",
    [{ id := "fs1", text := "Describe a full-stack feature you delivered end-to-end." },
    { id := "fs2", text := "How do you coordinate API design with frontend UX?" },
    { id := "fs3", text := "Which testing strategies do you rely on across the stack?" },
    { id := "fs4", text := "How do you decide where logic belongs: client or server?" },
    { id := "fs5", text := "Describe a time you optimized end-to-end performance." },
    { id := "fs6", text := "How do you manage deployments and rollbacks for fullstack changes?" },
    { id := "fs7", text := "How do you design for offline-first or flaky networks?" },
    { id := "fs8", text := "Explain a CI/CD pipeline you built for full-stack delivery." },
    { id := "fs9", text := "How do you handle schema evolution and teams coordination?" },
    { id := "fs10", text := "Talk about observability coverage you rely on across the stack." },
    { id := "fs11", text := "What security considerations do you build into full-stack features?" },
    { id := "fs12", text := "How do you split and manage technical debt across frontend/backend?" }]),
   ("Data Scientist",
    [{ id := "d1", text := "Walk me through a data project where you moved from raw data to business impact." },
    { id := "d2", text := "How do you validate model performance and guard against data leakage?" },
    { id := "d3", text := "Describe a time you improved model interpretability." },
    { id := "d4", text := "How do you handle feature engineering at scale?" },
    { id := "d5", text := "Explain a time your model failed in production and how you responded." },
    { id := "d6", text := "How do you measure attribution and uplift?" },
    { id := "d7", text := "Describe your approach to data quality and validation." },
    { id := "d8", text := "How do you balance performance with model explainability?" },
    { id := "d9", text := "What tooling and pipelines do you use for reproducible experiments?" },
    { id := "d10", text := "How do you collaborate with engineers to productionize models?" },
    { id := "d11", text := "Describe a creative feature you engineered that improved results." },
    { id := "d12", text := "How do you incorporate business metrics into model objectives?" }]),
   ("Machine Learning Engineer",
    [{ id := "m1", text := "Describe how you productionize a machine learning model." },
    { id := "m2", text := "What monitoring would you add for a deployed model?" },
    { id := "m3", text := "Explain a technical challenge you faced implementing an ML pipeline." },
    { id := "m4", text := "How do you manage model versioning and rollbacks?" },
    { id := "m5", text := "Describe your approach to feature stores and online features." },
    { id := "m6", text := "How do you handle inference latency and scaling?" },
    { id := "m7", text := "Explain batching vs streaming inference tradeoffs." },
    { id := "m8", text := "How do you test model correctness end-to-end?" },
    { id := "m9", text := "Describe model security considerations (data leakage, info exposure)." },
    { id := "m10", text := "How do you automate retraining and drift detection?" },
    { id := "m11", text := "Talk about a production incident and your remediation." },
    { id := "m12", text := "How do you ensure reproducibility and experiment tracking?" }]),
   ("DevOps Engineer",
    [{ id := "dv1", text := "How do you design CI/CD for safety and speed?" },
    { id := "dv2", text := "Explain a time you improved system reliability." },
    { id := "dv3", text := "Which observability signals do you prioritize and why?" },
    { id := "dv4", text := "How do you design capacity planning and autoscaling?" },
    { id := "dv5", text := "Describe a major incident you handled and the postmortem." },
    { id := "dv6", text := "How do you approach secrets management and rotation?" },
    { id := "dv7", text := "What are your deployment strategies for zero-downtime?" },
    { id := "dv8", text := "Explain infrastructure-as-code practices you follow." },
    { id := "dv9", text := "How do you secure the CI/CD pipeline?" },
    { id := "dv10", text := "What SLAs and SLOs would you set for a critical service?" },
    { id := "dv11", text := "How do you test disaster recovery plans?" },
    { id := "dv12", text := "Describe how you reduce mean time to recovery (MTTR)." }]),
   ("Mobile Engineer",
    [{ id := "mm1", text := "Describe mobile architecture choices you made for performance." },
    { id := "mm2", text := "How do you test on devices and across OS versions?" },
    { id := "mm3", text := "Explain a tricky memory or layout bug you solved." },
    { id := "mm4", text := "How do you manage app size and startup time?" },
    { id := "mm5", text := "Describe offline and sync strategies you implemented." },
    { id := "mm6", text := "How do you approach cross-platform tradeoffs?" },
    { id := "mm7", text := "What tooling do you use for profiling and diagnostics?" },
    { id := "mm8", text := "Explain a challenging UX constraint you solved for mobile." },
    { id := "mm9", text := "How do you handle long-running background work?" },
    { id := "mm10", text := "How do you secure sensitive data on-device?" },
    { id := "mm11", text := "Describe your testing matrix for versions and devices." },
    { id := "mm12", text := "How do you monitor crashes and prioritize fixes?" }]),
   ("QA Engineer",
    [{ id := "q1", text := "Describe an automation test you built and its impact." },
    { id := "q2", text := "How do you approach testing for flaky distributed systems?" },
    { id := "q3", text := "What is your approach to balancing manual and automated testing?" },
    { id := "q4", text := "How do you design test data and environments?" },
    { id := "q5", text := "Explain how you measure testing effectiveness." },
    { id := "q6", text := "How do you integrate tests into CI without blocking delivery?" },
    { id := "q7", text := "Describe a time you reduced escaped defects." },
    { id := "q8", text := "How do you approach exploratory testing and bug hunts?" },
    { id := "q9", text := "What tooling do you use for observability of tests?" },
    { id := "q10", text := "How do you coach engineers to write testable code?" },
    { id := "q11", text := "How do you prioritize test coverage vs development speed?" },
    { id := "q12", text := "Describe a testing strategy for an API-first product." }]),
   ("Security Engineer",
    [{ id := "s1", text := "Describe a security incident you handled and how you mitigated it." },
    { id := "s2", text := "What secure coding practices do you enforce in a team?" },
    { id := "s3", text := "How would you approach threat modeling for a new service?" },
    { id := "s4", text := "How do you prioritize vulnerabilities and remediation?" },
    { id := "s5", text := "Describe how you handle secrets and key rotation." },
    { id := "s6", text := "What are common misconfigurations you watch for in cloud environments?" },
    { id := "s7", text := "How do you run red-team or adversarial testing?" },
    { id := "s8", text := "Explain a time you improved incident detection." },
    { id := "s9", text := "How do you secure CI/CD and artifact pipelines?" },
    { id := "s10", text := "What threat intel sources do you integrate into work?" },
    { id := "s11", text := "How do you measure security program effectiveness?" },
    { id := "s12", text := "Describe your approach to privacy and data protection." }]),
   ("Product Manager",
    [{ id := "p1", text := "How do you prioritize features when resources are limited?" },
    { id := "p2", text := "Describe a time you turned ambiguous requirements into clear milestones." },
    { id := "p3", text := "How do you measure product success after launch?" },
    { id := "p4", text := "How do you collect and synthesize user feedback?" },
    { id := "p5", text := "Describe a tradeoff you made between speed and polish." },
    { id := "p6", text := "How do you align stakeholders across teams?" },
    { id := "p7", text := "Explain a product experiment you ran and the outcome." },
    { id := "p8", text := "How do you use metrics to influence roadmap decisions?" },
    { id := "p9", text := "Describe how you onboard new users to a product feature." },
    { id := "p10", text := "How do you think about pricing and monetization?" },
    { id := "p11", text := "How do you handle competing customer segments?" },
    { id := "p12", text := "Describe your approach to technical debt vs feature investment." }])]

/-- The client's role-keyed keyword sets (`ROLE_KEYWORDS`). -/
def ROLE_KEYWORDS : List (String × List String) :=
  [("Frontend Engineer", ["react", "vue", "angular", "javascript", "css", "html", "accessibility", "performance", "webpack", "vite"]),
   ("Backend Engineer", ["api", "database", "sql", "nosql", "caching", "latency", "scalability", "node", "go", "java"]),
   ("Fullstack Engineer", ["api", "frontend", "backend", "deployment", "react", "node", "graphql", "rest"]),
   ("Data Scientist", ["model", "analysis", "feature", "pandas", "numpy", "ml", "metrics", "a/b", "data"]),
   ("Machine Learning Engineer", ["model", "inference", "feature store", "latency", "drift", "tracking", "mlflow"]),
   ("DevOps Engineer", ["ci", "cd", "kubernetes", "docker", "monitoring", "slo", "sla", "alerts"]),
   ("Mobile Engineer", ["android", "ios", "swift", "kotlin", "layout", "memory", "performance"]),
   ("QA Engineer", ["test", "automation", "flaky", "coverage", "ci", "selenium", "cypress"]),
   ("Security Engineer", ["vulnerability", "threat", "sec", "csrf", "xss", "encryption", "auth", "oauth"]),
   ("Product Manager", ["metric", "user", "roadmap", "stakeholder", "experiment", "growth"])]

/-- `ROLE_QUESTIONS[role]`. -/
def lookupBank (role : String) : Option (List CQuestion) :=
  (List.find? (fun p => p.1 == role) ROLE_QUESTIONS).map (fun p => p.2)

/-- `ROLE_QUESTIONS[role] || [{ id: 'dft1', text: '…' }]`. -/
def jsLookupBank (role : String) : List CQuestion :=
  (lookupBank role).getD
    [{ id := "dft1", text := "Tell me about your most recent work." }]

/-- `ROLE_KEYWORDS[role] || []`. -/
def jsLookupKeywords (role : String) : List String :=
  ((List.find? (fun p => p.1 == role) ROLE_KEYWORDS).map (fun p => p.2)).getD []

/-- `localAnalyze(answers, role)`: the client's deterministic heuristic
scorer, transcribed line by line from the source. -/
def localAnalyze (answers : List LocalAnswer) (role : String) :
    Recommendation :=
  let joined := String.intercalate " " (answers.map (fun a => a.transcript))
  let words := jsWords joined
  let totalWords := words.length
  let answerCount := answers.length
  let avgWords : ℤ :=
    if answerCount ≠ 0 then jround ((totalWords : ℚ) / answerCount) else 0
  let keywords := jsLookupKeywords role
  let lower := jsToLower joined
  let matchCount := keywords.countP (fun k => jsIncludes lower k)
  let keywordScore : ℤ :=
    if keywords.length ≠ 0 then
      jround (((matchCount : ℚ) / keywords.length) * 100)
    else 50
  let score : ℤ :=
    min 100 (jround ((min (avgWords : ℚ) 120) / 120 * 60 +
      (keywordScore : ℚ) * (2 / 5)))
  let strengths :=
    (if avgWords > 30 then ["Gave detailed answers"] else []) ++
    (if keywordScore > 50 then ["Used relevant domain terms"] else [])
  let weaknesses :=
    (if avgWords > 30 then [] else
      ["Answers were brief; provide more detail"]) ++
    (if keywordScore > 50 then [] else
      ["Mention more role-specific terminology and techniques"]) ++
    (if answerCount < 6 then ["Try to cover more topics in depth"] else [])
  let summary :=
    "You answered " ++ Nat.repr answerCount ++
    " questions with an average of " ++ toString avgWords ++
    " words per answer. Detected " ++ Nat.repr matchCount ++
    " relevant keywords for " ++ role ++ "."
  let recommendation :=
    if score ≥ 70 then "Proceed to next-round interview"
    else if score ≥ 45 then "Consider technical coaching"
    else "Needs further development"
  { recommendation := recommendation, score := score, summary := summary,
    strengths := some strengths, weaknesses := some weaknesses }

/-- Observable side effects of a client-handler step. -/
inductive ClientAction where
  | speakQuestion (text : String)
  | speakPlain (text : String)
  | emitCandidateAnswer (sessionId questionId transcript : String)
  deriving Repr, DecidableEq

/-- The client-orchestrator state relevant to the turn cycle: the React
state flags, the `localQuestionsRef`/`localIndexRef`/`localAnswersRef`
refs, and whether the follow-up watchdog timeout is pending.
`analyzeCount` instruments how many times `localAnalyze` has been run. -/
structure ClientState where
  role : String
  socketConnected : Bool
  sessionId : Option String
  sessionActive : Bool
  interviewFinished : Bool
  currentQuestion : Option CQuestion
  localQuestions : List CQuestion
  localIndex : Nat
  localAnswers : List LocalAnswer
  result : Option Recommendation
  followupTimerArmed : Bool
  analyzeCount : Nat
  deriving Repr, DecidableEq

/-- Placeholder for `undefined` indexing into an empty local bank. -/
def undefinedCQuestion : CQuestion := { id := "", text := "" }

/-- The local-fallback branch of `startSession()` (socket disconnected):
seed the refs from the role bank, mint a `local-` session id, mark the
session active and speak the first bank question. -/
def startSessionLocal (st : ClientState) (now : Nat) :
    ClientState × List ClientAction :=
  let qset := jsLookupBank st.role
  let first := qset.headD undefinedCQuestion
  ({ st with
      localQuestions := qset, localIndex := 0, localAnswers := [],
      sessionId := some ("local-" ++ Nat.repr now), sessionActive := true,
      currentQuestion := some first },
   [ClientAction.speakQuestion first.text])

/-- `rec.onresult`: the captured-answer dispatcher.  Remote branch (socket
connected, session id and current question present): mirror the answer into
`localAnswersRef`, emit `candidate_answer` and (re)arm the 5-second
follow-up watchdog.  Local branch (session id starts with `local-`): append
the answer and either advance the cursor and speak the next bank question,
or — bank exhausted — run `localAnalyze` once and complete the session. -/
def onAnswerCaptured (st : ClientState) (transcript : String) :
    ClientState × List ClientAction :=
  if st.socketConnected ∧ st.sessionId.isSome ∧ st.currentQuestion.isSome
  then
    let ans : LocalAnswer :=
      { questionId := st.currentQuestion.map (fun q => q.id),
        transcript := transcript }
    ({ st with
        localAnswers := st.localAnswers ++ [ans],
        followupTimerArmed := true },
     [ClientAction.emitCandidateAnswer (st.sessionId.getD "")
        ((st.currentQuestion.map (fun q => q.id)).getD "") transcript])
  else if jsStartsWith (st.sessionId.getD "") "local-" then
    let ans : LocalAnswer :=
      { questionId := st.currentQuestion.map (fun q => q.id),
        transcript := transcript }
    let st1 := { st with localAnswers := st.localAnswers ++ [ans] }
    let nextIndex := st1.localIndex + 1
    if nextIndex < st1.localQuestions.length then
      let nextQ := st1.localQuestions.getD nextIndex undefinedCQuestion
      ({ st1 with localIndex := nextIndex, currentQuestion := some nextQ },
       [ClientAction.speakQuestion nextQ.text])
    else
      let analysis := localAnalyze st1.localAnswers
        (if st1.role = "" then "Unknown" else st1.role)
      ({ st1 with
          interviewFinished := true, sessionActive := false,
          result := some analysis, analyzeCount := st1.analyzeCount + 1 },
       [ClientAction.speakPlain ("Interview complete. " ++ analysis.summary ++
          " Recommendation: " ++ analysis.recommendation ++
          ". Overall score: " ++ toString analysis.score ++ " out of 100.")])
  else (st, [])

/-- The body of the 5-second follow-up watchdog timeout: seed the local
bank from the role if the ref is still empty, then advance one local
question if one remains, else speak a closing line.  The remote session
(socket, session id, active flag) is untouched. -/
def followupWatchdogFire (st : ClientState) :
    ClientState × List ClientAction :=
  let st0 := { st with followupTimerArmed := false }
  let st1 :=
    if st0.localQuestions.isEmpty then
      { st0 with localQuestions := jsLookupBank st0.role, localIndex := 0 }
    else st0
  let nextIndex := st1.localIndex + 1
  if nextIndex < st1.localQuestions.length then
    let nextQ := st1.localQuestions.getD nextIndex undefinedCQuestion
    ({ st1 with localIndex := nextIndex, currentQuestion := some nextQ },
     [ClientAction.speakQuestion nextQ.text])
  else
    (st1, [ClientAction.speakPlain "I have no further questions at this time."])

/-- The socket `followup` handler: clear the pending watchdog, then — when
the payload holds a question with truthy text — adopt and speak it. -/
def onFollowup (st : ClientState) (f : Option CQuestion) :
    ClientState × List ClientAction :=
  let st0 := { st with followupTimerArmed := false }
  match f with
  | some q =>
    if q.text ≠ "" then
      ({ st0 with currentQuestion := some q },
       [ClientAction.speakQuestion q.text])
    else (st0, [])
  | none => (st0, [])

/-! ## Helper lemmas -/

theorem storeGet_set_self (st : Store) (k : String) (v : InterviewSession) :
    storeGet (storeSet st k v) k = some v := by
  simp [storeGet, storeSet, List.find?]

theorem genInitial_shape (jparse : String → Option InitialParsed)
    (s : InterviewSession) (resp : Option String) (now : Nat) :
    ∃ kp, (s.generateInitialQuestion jparse resp now).1 =
      { s with keyPoints := kp } := by
  cases resp with
  | none => exact ⟨s.keyPoints, rfl⟩
  | some txt =>
    cases hp : jparse (extractJson txt) with
    | none =>
      refine ⟨s.keyPoints, ?_⟩
      simp [InterviewSession.generateInitialQuestion, hp]
    | some parsed =>
      cases hkt : parsed.key_topic with
      | none =>
        refine ⟨s.keyPoints, ?_⟩
        simp [InterviewSession.generateInitialQuestion, hp, hkt]
      | some kt =>
        by_cases hk : kt = ""
        · refine ⟨s.keyPoints, ?_⟩
          simp [InterviewSession.generateInitialQuestion, hp, hkt, hk]
        · refine ⟨s.keyPoints ++ ["Starting topic: " ++ kt], ?_⟩
          simp [InterviewSession.generateInitialQuestion, hp, hkt, hk]

theorem foldlAddQuestion_shape (now : Nat) (ts : List String) :
    ∀ s : InterviewSession, ∃ tail,
      ts.foldl (fun acc t => (acc.addQuestion t now).1) s =
        { s with questions := s.questions ++ tail } := by
  induction ts with
  | nil => exact fun s => ⟨[], by simp⟩
  | cons t rest ih =>
    intro s
    obtain ⟨tail, htail⟩ := ih ((s.addQuestion t now).1)
    refine ⟨(s.addQuestion t now).2 :: tail, ?_⟩
    rw [List.foldl_cons, htail]
    simp [InterviewSession.addQuestion]

theorem reqFollowup_shape (jparse : String → Option FollowupParsed)
    (s s2 : InterviewSession) (resp : Option String) (now : Nat)
    (parsed : FollowupParsed)
    (h : s.requestFollowupAndKeypoints jparse resp now = some (s2, parsed)) :
    ∃ tail kp, s2 = { s with
      questions := s.questions ++ tail, keyPoints := kp } := by
  unfold InterviewSession.requestFollowupAndKeypoints at h
  cases hq : s.questions.isEmpty with
  | true => rw [hq] at h; simp at h
  | false =>
  rw [hq] at h
  simp only [Bool.false_eq_true, if_false] at h
  cases resp with
  | none => simp at h
  | some txt =>
  dsimp only at h
  cases hp : jparse (extractJson txt) with
  | none =>
    rw [hp] at h
    by_cases hfl : jsFirstLine txt = ""
    · simp only [hfl, if_pos, Option.some.injEq, Prod.mk.injEq] at h
      exact ⟨[], s.keyPoints, by rw [← h.1]; try simp⟩
    · simp only [hfl, if_neg, not_false_iff, Option.some.injEq,
        Prod.mk.injEq, InterviewSession.addQuestion] at h
      exact ⟨_, s.keyPoints, by rw [← h.1]; try simp⟩
  | some p =>
    rw [hp] at h
    cases hfu : p.followup with
    | none =>
      cases hkp : p.key_points with
      | none =>
        simp only [hfu, hkp, Option.some.injEq, Prod.mk.injEq] at h
        exact ⟨[], s.keyPoints, by rw [← h.1]; try simp⟩
      | some kps =>
        simp only [hfu, hkp, Option.some.injEq, Prod.mk.injEq] at h
        exact ⟨[], s.keyPoints ++ kps, by rw [← h.1]; try simp⟩
    | some f =>
      by_cases hf : f = ""
      · cases hkp : p.key_points with
        | none =>
          simp only [hfu, hkp, hf, if_pos, Option.some.injEq,
            Prod.mk.injEq] at h
          exact ⟨[], s.keyPoints, by rw [← h.1]; try simp⟩
        | some kps =>
          simp only [hfu, hkp, hf, if_pos, Option.some.injEq,
            Prod.mk.injEq] at h
          exact ⟨[], s.keyPoints ++ kps, by rw [← h.1]; try simp⟩
      · cases hkp : p.key_points with
        | none =>
          simp only [hfu, hkp, hf, if_neg, not_false_iff,
            Option.some.injEq, Prod.mk.injEq,
            InterviewSession.addQuestion] at h
          exact ⟨_, s.keyPoints, by rw [← h.1]; try simp⟩
        | some kps =>
          simp only [hfu, hkp, hf, if_neg, not_false_iff,
            Option.some.injEq, Prod.mk.injEq,
            InterviewSession.addQuestion] at h
          exact ⟨_, s.keyPoints ++ kps, by rw [← h.1]; try simp⟩

theorem defaultOpeningText_ne_empty (role : String) :
    defaultOpeningText role ≠ "" := by
  intro h
  have hlen := congrArg String.length h
  simp [defaultOpeningText, String.length_append] at hlen
  exact absurd hlen.2 (by decide)

/-! ## Claim theorems -/

/-- C3: for every role and resume, if the external generator call fails, or
its output cannot be parsed into a question, `create_session` still
succeeds: the handler does not crash, the session is stored under the
assigned id with the opening question first, `session_created` is emitted,
and the opening question's text is exactly
"Tell me about your experience relevant to the role of <role>.", which is
non-empty.  Generator failure never causes session creation to fail. -/
theorem C3_create_session_survives_generator_failure
    (jparse : String → Option InitialParsed) (role resume : String)
    (durationMin : Nat) (genResp : Option String) (now : Nat) (store : Store)
    (r : HandlerResult)
    (hr : r = createSessionHandler jparse role resume durationMin genResp
      now store)
    (hfail : genResp = none ∨
      ∃ txt, genResp = some txt ∧ jparse (extractJson txt) = none) :
    r.crashed = false ∧
    defaultOpeningText role ≠ "" ∧
    ∃ s rest, storeGet r.store ("s_" ++ Nat.repr now) = some s ∧
      s.questions =
        { id := "q_1", text := defaultOpeningText role, askedAt := now }
          :: rest ∧
      r.events = [ServerEvent.session_created ("s_" ++ Nat.repr now)
        (some now) (some (now + durationMin * 60000))
        { id := "q_1", text := defaultOpeningText role, askedAt := now }] :=
  by
  subst hr
  have hgen : ((InterviewSession.new ("s_" ++ Nat.repr now) role resume
        durationMin).startNow now).generateInitialQuestion jparse genResp
        now =
      ((InterviewSession.new ("s_" ++ Nat.repr now) role resume
        durationMin).startNow now,
       { id := "q_1", text := defaultOpeningText role, askedAt := now }) :=
    by
    rcases hfail with hg | ⟨txt, hg, hp⟩ <;> subst hg
    · rfl
    · simp [InterviewSession.generateInitialQuestion, hp,
        InterviewSession.new, InterviewSession.startNow, defaultOpeningText]
  unfold createSessionHandler
  dsimp only
  rw [hgen]
  dsimp only
  refine ⟨rfl, defaultOpeningText_ne_empty role, ?_⟩
  split
  · rcases hm : matchedDefault role with _ | p
    · dsimp only
      refine ⟨_, [], storeGet_set_self _ _ _, ?_, ?_⟩ <;>
        simp [InterviewSession.new, InterviewSession.startNow]
    · dsimp only
      obtain ⟨tail, htail⟩ := foldlAddQuestion_shape now p.2 _
      rw [htail]
      refine ⟨_, tail, storeGet_set_self _ _ _, ?_, ?_⟩ <;>
        simp [InterviewSession.new, InterviewSession.startNow]
  · refine ⟨_, [], storeGet_set_self _ _ _, ?_, ?_⟩ <;>
      simp [InterviewSession.new, InterviewSession.startNow]

/-- Witness for C3: role "Backend Engineer", empty resume, generator
unreachable — session creation succeeds with the deterministic default
opening question. -/
theorem C3_witness :
    (createSessionHandler (fun _ => none) "Backend Engineer" "" 18 none 0
      []).crashed = false ∧
    defaultOpeningText "Backend Engineer" ≠ "" ∧
    ∃ s rest,
      storeGet (createSessionHandler (fun _ => none) "Backend Engineer" ""
        18 none 0 []).store ("s_" ++ Nat.repr 0) = some s ∧
      s.questions =
        { id := "q_1", text := defaultOpeningText "Backend Engineer",
          askedAt := 0 } :: rest ∧
      (createSessionHandler (fun _ => none) "Backend Engineer" "" 18 none 0
        []).events = [ServerEvent.session_created ("s_" ++ Nat.repr 0)
        (some 0) (some (0 + 18 * 60000))
        { id := "q_1", text := defaultOpeningText "Backend Engineer",
          askedAt := 0 }] :=
  C3_create_session_survives_generator_failure (fun _ => none)
    "Backend Engineer" "" 18 none 0 [] _ rfl (Or.inl rfl)

theorem createSession_shape (jparse : String → Option InitialParsed)
    (role resume : String) (durationMin : Nat) (genResp : Option String)
    (now : Nat) (store : Store) :
    ∃ q qs kp,
      createSessionHandler jparse role resume durationMin genResp now
          store =
        { store := storeSet store ("s_" ++ Nat.repr now)
            { id := "s_" ++ Nat.repr now, role := role, resume := resume,
              durationMin := durationMin, start := some now,
              endTime := some (now + durationMin * 60000),
              questions := q :: qs, answers := [], keyPoints := kp,
              recommendation := none, ended := false },
          events := [ServerEvent.session_created ("s_" ++ Nat.repr now)
            (some now) (some (now + durationMin * 60000)) q],
          genCalls := 1, crashed := false } := by
  obtain ⟨kp0, hkp⟩ := genInitial_shape jparse
    ((InterviewSession.new ("s_" ++ Nat.repr now) role resume
      durationMin).startNow now) genResp now
  unfold createSessionHandler
  dsimp only
  rcases he : ((InterviewSession.new ("s_" ++ Nat.repr now) role resume
      durationMin).startNow now).generateInitialQuestion jparse genResp now
    with ⟨s1, q⟩
  rw [he] at hkp
  dsimp only at hkp
  subst hkp
  dsimp only
  split
  · rcases hm : matchedDefault role with _ | p
    · refine ⟨q, [], kp0, ?_⟩
      simp [InterviewSession.new, InterviewSession.startNow]
    · dsimp only
      obtain ⟨tail, htail⟩ := foldlAddQuestion_shape now p.2 _
      rw [htail]
      refine ⟨q, tail, kp0, ?_⟩
      simp [InterviewSession.new, InterviewSession.startNow]
  · refine ⟨q, [], kp0, ?_⟩
    simp [InterviewSession.new, InterviewSession.startNow]

/-- C9 (counterexample): two distinct `create_session` requests (different
roles and resumes) handled in the same millisecond are assigned the same
identifier `s_1234`, and the second stored session overwrites the first:
identifiers are not unique per session. -/
theorem C9_counterexample :
    (createSessionHandler (fun _ => none) "Frontend Engineer" "resume A" 18
        none 1234 []).events =
      [ServerEvent.session_created "s_1234" (some 1234) (some 1081234)
        { id := "q_1",
          text := defaultOpeningText "Frontend Engineer",
          askedAt := 1234 }] ∧
    (createSessionHandler (fun _ => none) "Backend Engineer" "resume B" 18
        none 1234
        (createSessionHandler (fun _ => none) "Frontend Engineer"
          "resume A" 18 none 1234 []).store).events =
      [ServerEvent.session_created "s_1234" (some 1234) (some 1081234)
        { id := "q_1",
          text := defaultOpeningText "Backend Engineer",
          askedAt := 1234 }] ∧
    (storeGet (createSessionHandler (fun _ => none) "Backend Engineer"
        "resume B" 18 none 1234
        (createSessionHandler (fun _ => none) "Frontend Engineer"
          "resume A" 18 none 1234 []).store).store "s_1234").map
      (fun s => s.role) = some "Backend Engineer" := by
  refine ⟨?_, ?_, ?_⟩ <;> rfl

/-- C9 (amended): the session identifier is `'s_' + Date.now()`, a pure
function of the handling timestamp.  Two `create_session` requests handled
in the same millisecond `t` — whatever their roles, resumes or generator
responses — are assigned the identical identifier `s_<t>`, and after both
are processed the store maps that identifier to the *second* request's
session: the identifier is reused for a different session.  Identifiers
are distinct only when the timestamps differ. -/
theorem C9_amended_same_millisecond_id_collision
    (jp1 jp2 : String → Option InitialParsed)
    (role1 resume1 role2 resume2 : String) (d1 d2 : Nat)
    (g1 g2 : Option String) (t : Nat) (store : Store) (r1 r2 : HandlerResult)
    (h1 : r1 = createSessionHandler jp1 role1 resume1 d1 g1 t store)
    (h2 : r2 = createSessionHandler jp2 role2 resume2 d2 g2 t r1.store) :
    (∃ q1, r1.events = [ServerEvent.session_created ("s_" ++ Nat.repr t)
      (some t) (some (t + d1 * 60000)) q1]) ∧
    (∃ q2, r2.events = [ServerEvent.session_created ("s_" ++ Nat.repr t)
      (some t) (some (t + d2 * 60000)) q2]) ∧
    (∃ s, storeGet r2.store ("s_" ++ Nat.repr t) = some s ∧
      s.role = role2 ∧ s.resume = resume2) := by
  obtain ⟨q1, qs1, kp1, hs1⟩ := createSession_shape jp1 role1 resume1 d1 g1
    t store
  obtain ⟨q2, qs2, kp2, hs2⟩ := createSession_shape jp2 role2 resume2 d2 g2
    t r1.store
  subst h1 h2
  rw [hs1] at hs2 ⊢
  rw [hs2]
  dsimp only
  refine ⟨⟨q1, rfl⟩, ⟨q2, rfl⟩, ⟨_, storeGet_set_self _ _ _, rfl, rfl⟩⟩

/-- Witness for C9 (amended), at two concrete same-millisecond requests. -/
theorem C9_amended_witness :
    (∃ q1, (createSessionHandler (fun _ => none) "QA Engineer" "r1" 10 none
      77 []).events = [ServerEvent.session_created ("s_" ++ Nat.repr 77)
      (some 77) (some (77 + 10 * 60000)) q1]) ∧
    (∃ q2, (createSessionHandler (fun _ => none) "Product Manager" "r2" 20
      none 77 (createSessionHandler (fun _ => none) "QA Engineer" "r1" 10
        none 77 []).store).events =
      [ServerEvent.session_created ("s_" ++ Nat.repr 77) (some 77)
        (some (77 + 20 * 60000)) q2]) ∧
    (∃ s, storeGet (createSessionHandler (fun _ => none) "Product Manager"
      "r2" 20 none 77 (createSessionHandler (fun _ => none) "QA Engineer"
        "r1" 10 none 77 []).store).store ("s_" ++ Nat.repr 77) = some s ∧
      s.role = "Product Manager" ∧ s.resume = "r2") :=
  C9_amended_same_millisecond_id_collision (fun _ => none) (fun _ => none)
    "QA Engineer" "r1" "Product Manager" "r2" 10 20 none none 77 [] _ _
    rfl rfl

/-- The parse-failure fallback recommendation object that
`finalizeRecommendation` stores: `{recommendation: 'Undetermined', score:
50, summary: raw generator text}` (no strengths/weaknesses fields). -/
def undeterminedRec (txt : String) : Recommendation :=
  { recommendation := "Undetermined", score := 50, summary := txt,
    strengths := none, weaknesses := none }

/-- A concrete parsed recommendation (first generator reply). -/
def demoRecPass : Recommendation :=
  { recommendation := "Pass", score := 82, summary := "strong answers",
    strengths := some ["depth"], weaknesses := some [] }

/-- A different concrete parsed recommendation (second generator reply). -/
def demoRecFail : Recommendation :=
  { recommendation := "Fail", score := 35, summary := "weak answers",
    strengths := some [], weaknesses := some ["shallow"] }

/-- A concrete parse function: a JSON parse that reads `out1` as
`demoRecPass` and `out2` as `demoRecFail`. -/
def demoParseRec : String → Option Recommendation := fun t =>
  if t = "out1" then some demoRecPass
  else if t = "out2" then some demoRecFail
  else none

/-- A concrete live (not yet finalized) session. -/
def demoSession : InterviewSession :=
  { id := "s_1", role := "Backend Engineer", resume := "r",
    durationMin := 18, start := some 0, endTime := some 1080000,
    questions := [{ id := "q_1", text := "Tell me about X", askedAt := 0 }],
    answers := [{ questionId := "q_1", transcript := "I did X", ts := 1 }],
    keyPoints := [], recommendation := none, ended := false }

/-- C1 (counterexample): finalize is not idempotent.  Starting from a live
session, a first `finish_interview` stores `demoRecPass`; a second
`finish_interview` on the now-`ended` session performs another generator
call (`genCalls = 1`, not `0`), emits a `finished` event carrying a
*different* recommendation, and overwrites the stored one. -/
theorem C1_counterexample :
    (finishInterviewHandler demoParseRec "s_1" (some "out1")
      [("s_1", demoSession)]).events =
      [ServerEvent.finished demoRecPass demoSession.questions
        demoSession.answers demoSession.keyPoints] ∧
    storeGet (finishInterviewHandler demoParseRec "s_1" (some "out1")
      [("s_1", demoSession)]).store "s_1" =
      some { demoSession with
        recommendation := some demoRecPass, ended := true } ∧
    (finishInterviewHandler demoParseRec "s_1" (some "out2")
      (finishInterviewHandler demoParseRec "s_1" (some "out1")
        [("s_1", demoSession)]).store).genCalls = 1 ∧
    (finishInterviewHandler demoParseRec "s_1" (some "out2")
      (finishInterviewHandler demoParseRec "s_1" (some "out1")
        [("s_1", demoSession)]).store).events =
      [ServerEvent.finished demoRecFail demoSession.questions
        demoSession.answers demoSession.keyPoints] ∧
    storeGet (finishInterviewHandler demoParseRec "s_1" (some "out2")
      (finishInterviewHandler demoParseRec "s_1" (some "out1")
        [("s_1", demoSession)]).store).store "s_1" =
      some { demoSession with
        recommendation := some demoRecFail, ended := true } ∧
    demoRecFail ≠ demoRecPass := by
  exact ⟨rfl, rfl, rfl, rfl, rfl, by decide⟩

/-- C1 (amended): `finish_interview` runs `finalizeRecommendation`
unconditionally — there is no `ended` guard — so a second finalize on a
session whose `ended` flag is already true invokes the generator again
(one further generator call), overwrites the stored recommendation with
the newly parsed result, and emits a second `finished` event carrying it;
the result coincides with the first call's only if the generator happens
to return the same parse. -/
theorem C1_amended_second_finalize_reinvokes_generator
    (jparse : String → Option Recommendation) (sessionId txt : String)
    (store : Store) (session : InterviewSession) (parsed : Recommendation)
    (r : HandlerResult)
    (hr : r = finishInterviewHandler jparse sessionId (some txt) store)
    (hget : storeGet store sessionId = some session)
    (hended : session.ended = true)
    (hparse : jparse (extractJson txt) = some parsed) :
    r.genCalls = 1 ∧
    r.events = [ServerEvent.finished parsed session.questions
      session.answers session.keyPoints] ∧
    storeGet r.store sessionId =
      some { session with recommendation := some parsed, ended := true } :=
  by
  subst hr
  unfold finishInterviewHandler
  rw [hget]
  dsimp only
  unfold InterviewSession.finalizeRecommendation
  dsimp only
  rw [hparse]
  dsimp only
  exact ⟨rfl, rfl, storeGet_set_self _ _ _⟩

/-- Witness for C1 (amended): a second finalize on the concrete ended
session left behind by a first finalize. -/
theorem C1_amended_witness :
    (finishInterviewHandler demoParseRec "s_1" (some "out2")
      [("s_1", { demoSession with
        recommendation := some demoRecPass, ended := true })]).genCalls =
      1 ∧
    (finishInterviewHandler demoParseRec "s_1" (some "out2")
      [("s_1", { demoSession with
        recommendation := some demoRecPass, ended := true })]).events =
      [ServerEvent.finished demoRecFail
        ({ demoSession with
          recommendation := some demoRecPass, ended := true }
            : InterviewSession).questions
        ({ demoSession with
          recommendation := some demoRecPass, ended := true }
            : InterviewSession).answers
        ({ demoSession with
          recommendation := some demoRecPass, ended := true }
            : InterviewSession).keyPoints] ∧
    storeGet (finishInterviewHandler demoParseRec "s_1" (some "out2")
      [("s_1", { demoSession with
        recommendation := some demoRecPass, ended := true })]).store
      "s_1" =
      some { { demoSession with
        recommendation := some demoRecPass, ended := true } with
          recommendation := some demoRecFail, ended := true } :=
  C1_amended_second_finalize_reinvokes_generator demoParseRec "s_1" "out2"
    [("s_1", { demoSession with
      recommendation := some demoRecPass, ended := true })]
    { demoSession with recommendation := some demoRecPass, ended := true }
    demoRecFail _ rfl rfl rfl rfl

/-- C5 (counterexample): when the generator call itself fails (`none`),
`finish_interview` crashes — the rejection escapes the handler — no
`finished` event is emitted, and the session is left unfinalized: the
failure *is* propagated to the caller, contradicting the claim. -/
theorem C5_counterexample :
    (finishInterviewHandler (fun _ => none) "s_1" none
      [("s_1", demoSession)]).crashed = true ∧
    (finishInterviewHandler (fun _ => none) "s_1" none
      [("s_1", demoSession)]).events = [] ∧
    storeGet (finishInterviewHandler (fun _ => none) "s_1" none
      [("s_1", demoSession)]).store "s_1" = some demoSession ∧
    demoSession.ended = false := by
  exact ⟨rfl, rfl, rfl, rfl⟩

/-- C5 (amended): only a generator *parse* failure is absorbed: when the
generator call resolves but its output cannot be parsed,
`finish_interview` does not crash, stores the fallback
`{recommendation := "Undetermined", score := 50, summary := raw text}`
with `ended := true`, and still emits the `finished` event.  A failure of
the generator call itself, by contrast, escapes the handler (see the
counterexample). -/
theorem C5_amended_parse_failure_yields_fallback
    (jparse : String → Option Recommendation) (sessionId txt : String)
    (store : Store) (session : InterviewSession) (r : HandlerResult)
    (hr : r = finishInterviewHandler jparse sessionId (some txt) store)
    (hget : storeGet store sessionId = some session)
    (hparse : jparse (extractJson txt) = none) :
    r.crashed = false ∧
    r.events = [ServerEvent.finished (undeterminedRec txt)
      session.questions session.answers session.keyPoints] ∧
    storeGet r.store sessionId = some { session with
      recommendation := some (undeterminedRec txt), ended := true } := by
  subst hr
  unfold finishInterviewHandler
  rw [hget]
  dsimp only
  unfold InterviewSession.finalizeRecommendation
  dsimp only
  rw [hparse]
  dsimp only
  exact ⟨rfl, rfl, storeGet_set_self _ _ _⟩

/-- Witness for C5 (amended): a concrete unparsable generator reply. -/
theorem C5_amended_witness :
    (finishInterviewHandler (fun _ => none) "s_1" (some "garbage reply")
      [("s_1", demoSession)]).crashed = false ∧
    (finishInterviewHandler (fun _ => none) "s_1" (some "garbage reply")
      [("s_1", demoSession)]).events =
      [ServerEvent.finished (undeterminedRec "garbage reply")
        demoSession.questions demoSession.answers demoSession.keyPoints] ∧
    storeGet (finishInterviewHandler (fun _ => none) "s_1"
      (some "garbage reply") [("s_1", demoSession)]).store "s_1" =
      some { demoSession with
        recommendation := some (undeterminedRec "garbage reply"),
        ended := true } :=
  C5_amended_parse_failure_yields_fallback (fun _ => none) "s_1"
    "garbage reply" [("s_1", demoSession)] demoSession _ rfl rfl rfl

/-- The referential invariant claimed for sessions: every recorded answer
names the id of some question already in the session. -/
def answersReferenceQuestions (s : InterviewSession) : Prop :=
  ∀ a ∈ s.answers, ∃ q ∈ s.questions, q.id = a.questionId

instance (s : InterviewSession) :
    Decidable (answersReferenceQuestions s) := by
  unfold answersReferenceQuestions
  exact inferInstance

/-- C2 (counterexample): `candidate_answer` stores the client-supplied
`questionId` without validating it, so a request naming the id `bogus` —
which matches no question of the session — succeeds and leaves the stored
session violating the reference invariant. -/
theorem C2_counterexample :
    storeGet (candidateAnswerHandler
      (fun _ => some { followup := none, key_points := none }) "s_1"
      "bogus" "my answer" (some "reply") 5 [("s_1", demoSession)]).store
      "s_1" =
      some { demoSession with
        answers := demoSession.answers ++
          [{ questionId := "bogus", transcript := "my answer", ts := 5 }] } ∧
    ¬ answersReferenceQuestions { demoSession with
        answers := demoSession.answers ++
          [{ questionId := "bogus", transcript := "my answer", ts := 5 }] } :=
  ⟨rfl, by decide⟩

/-- C2 (amended): `candidate_answer` appends the answer with whatever
`questionId` the client supplied, unvalidated; the invariant that every
answer references an existing question is preserved exactly when the
submitted `questionId` already names one of the session's questions (as
the system's own client does in pure remote operation).  Under that
assumption the handler keeps the invariant: questions are only ever
appended, never removed. -/
theorem C2_amended_reference_invariant_preserved
    (jparse : String → Option FollowupParsed)
    (sessionId questionId transcript : String) (genResp : Option String)
    (now : Nat) (store : Store) (session : InterviewSession)
    (r : HandlerResult)
    (hr : r = candidateAnswerHandler jparse sessionId questionId transcript
      genResp now store)
    (hget : storeGet store sessionId = some session)
    (hinv : answersReferenceQuestions session)
    (hqid : ∃ q ∈ session.questions, q.id = questionId) :
    ∃ s2, storeGet r.store sessionId = some s2 ∧
      answersReferenceQuestions s2 := by
  subst hr
  have hs1 : answersReferenceQuestions
      ((session.addAnswer questionId transcript now).1) := by
    intro a ha
    unfold InterviewSession.addAnswer at ha
    dsimp only at ha
    rcases List.mem_append.1 ha with hold | hnew
    · exact hinv a hold
    · obtain ⟨q, hq, hqi⟩ := hqid
      rcases List.mem_singleton.1 hnew with rfl
      exact ⟨q, hq, hqi⟩
  unfold candidateAnswerHandler
  rw [hget]
  dsimp only
  rcases hfw : ((session.addAnswer questionId transcript
      now).1).requestFollowupAndKeypoints jparse genResp now
    with _ | ⟨s2, p⟩
  · exact ⟨_, storeGet_set_self _ _ _, hs1⟩
  · obtain ⟨tail, kp, hshape⟩ := reqFollowup_shape jparse _ s2 genResp now
      p hfw
    refine ⟨s2, storeGet_set_self _ _ _, ?_⟩
    subst hshape
    intro a ha
    dsimp only at ha ⊢
    obtain ⟨q, hq, hqi⟩ := hs1 a ha
    exact ⟨q, List.mem_append_left _ hq, hqi⟩

/-- Witness for C2 (amended): a concrete `candidate_answer` naming the
valid question id `q_1`. -/
theorem C2_amended_witness :
    (∃ q ∈ demoSession.questions, q.id = "q_1") ∧
    ∃ s2, storeGet (candidateAnswerHandler (fun _ => none) "s_1" "q_1"
      "more detail" (some "Next question?") 9
      [("s_1", demoSession)]).store "s_1" = some s2 ∧
      answersReferenceQuestions s2 :=
  ⟨by decide,
   C2_amended_reference_invariant_preserved (fun _ => none) "s_1" "q_1"
    "more detail" (some "Next question?") 9 [("s_1", demoSession)]
    demoSession _ rfl rfl (by decide) (by decide)⟩

/-- C6 (counterexample): when the generator's structured reply contains no
follow-up, the `followup` event does *not* carry an omitted/empty
question: it re-sends the session's latest already-asked question, whose
text is non-empty. -/
theorem C6_counterexample :
    (candidateAnswerHandler
      (fun _ => some { followup := none, key_points := none }) "s_1" "q_1"
      "ans" (some "reply") 7 [("s_1", demoSession)]).events =
      [ServerEvent.followup
        { id := "q_1", text := "Tell me about X", askedAt := 0 }] ∧
    ({ id := "q_1", text := "Tell me about X", askedAt := 0 } : Question)
      ∈ demoSession.questions ∧
    "Tell me about X" ≠ "" :=
  ⟨rfl, by decide, by decide⟩

/-- C6 (amended): when the structured reply contains no follow-up (absent
or empty), no new question is appended and the session stays open
(`ended` remains false), but the emitted `followup` event carries the
session's latest *existing* (already asked) question rather than an
omitted or empty one. -/
theorem C6_amended_no_followup_resends_last_question
    (jparse : String → Option FollowupParsed)
    (sessionId questionId transcript txt : String) (now : Nat)
    (store : Store) (session : InterviewSession) (parsed : FollowupParsed)
    (r : HandlerResult)
    (hr : r = candidateAnswerHandler jparse sessionId questionId transcript
      (some txt) now store)
    (hget : storeGet store sessionId = some session)
    (hqne : session.questions ≠ [])
    (hopen : session.ended = false)
    (hparse : jparse (extractJson txt) = some parsed)
    (hnofu : jsTruthyStr parsed.followup = false) :
    ∃ s2, storeGet r.store sessionId = some s2 ∧
      s2.questions = session.questions ∧
      s2.ended = false ∧
      r.events =
        [ServerEvent.followup (session.questions.getLast hqne)] := by
  subst hr
  unfold candidateAnswerHandler
  rw [hget]
  dsimp only
  have hq1 : ((session.addAnswer questionId transcript now).1).questions =
      session.questions := rfl
  have hem : ((session.addAnswer questionId transcript
      now).1).questions.isEmpty = false := by
    rw [hq1]
    cases hq : session.questions with
    | nil => exact absurd hq hqne
    | cons a l => rfl
  have hnf : parsed.followup = none ∨ parsed.followup = some "" := by
    cases hfu : parsed.followup with
    | none => exact Or.inl rfl
    | some fu =>
      rw [hfu] at hnofu
      unfold jsTruthyStr at hnofu
      simp only [ne_eq, decide_eq_false_iff_not, not_not] at hnofu
      exact Or.inr (by rw [hnofu])
  have hfw : ((session.addAnswer questionId transcript
        now).1).requestFollowupAndKeypoints jparse (some txt) now =
      some ((match parsed.key_points with
        | some kps => { (session.addAnswer questionId transcript now).1
            with keyPoints := session.keyPoints ++ kps }
        | none => (session.addAnswer questionId transcript now).1),
        parsed) := by
    unfold InterviewSession.requestFollowupAndKeypoints
    rw [hem]
    simp only [Bool.false_eq_true, if_false]
    rw [hparse]
    dsimp only
    rcases hnf with hfu | hfu <;> rw [hfu] <;> dsimp only <;>
      cases hkp : parsed.key_points <;> rfl
  rw [hfw]
  dsimp only
  cases hkp : parsed.key_points with
  | none =>
    refine ⟨_, storeGet_set_self _ _ _, hq1, hopen ▸ rfl, ?_⟩
    rw [hq1, List.getLast?_eq_getLast_of_ne_nil hqne]
    rfl
  | some kps =>
    refine ⟨_, storeGet_set_self _ _ _, hq1, ?_, ?_⟩
    · exact hopen
    · dsimp only
      rw [hq1, List.getLast?_eq_getLast_of_ne_nil hqne]
      rfl

/-- Witness for C6 (amended), at a concrete no-follow-up reply. -/
theorem C6_amended_witness :
    ∃ s2, storeGet (candidateAnswerHandler
      (fun _ => some { followup := none, key_points := none }) "s_1" "q_1"
      "ans" (some "reply") 7 [("s_1", demoSession)]).store "s_1" =
      some s2 ∧
      s2.questions = demoSession.questions ∧
      s2.ended = false ∧
      (candidateAnswerHandler
        (fun _ => some { followup := none, key_points := none }) "s_1"
        "q_1" "ans" (some "reply") 7 [("s_1", demoSession)]).events =
        [ServerEvent.followup
          (demoSession.questions.getLast (by decide))] :=
  C6_amended_no_followup_resends_last_question
    (fun _ => some { followup := none, key_points := none }) "s_1" "q_1"
    "ans" "reply" 7 [("s_1", demoSession)] demoSession
    { followup := none, key_points := none } _ rfl rfl (by decide) rfl rfl
    rfl

/-- C10: when `create_session` arrives with an empty or whitespace-only
resume and a role whose lowercased text contains one of the five default
keys (`frontend`, `backend`, `data`, `devops`, `product`), the handler
emits `session_created` carrying only the opening question, and then
appends the matched key's two role-default questions to the stored
session: immediately after creation the session holds exactly three
questions — the opening one plus the two defaults (ids `q_2`, `q_3`). -/
theorem C10_empty_resume_appends_two_default_questions
    (jparse : String → Option InitialParsed) (role resume : String)
    (durationMin : Nat) (genResp : Option String) (now : Nat)
    (store : Store) (p : String × List String) (r : HandlerResult)
    (hr : r = createSessionHandler jparse role resume durationMin genResp
      now store)
    (hres : jsTrim resume = "")
    (hmatch : matchedDefault role = some p) :
    ∃ q t1 t2, p.2 = [t1, t2] ∧
      r.events = [ServerEvent.session_created ("s_" ++ Nat.repr now)
        (some now) (some (now + durationMin * 60000)) q] ∧
      ∃ s, storeGet r.store ("s_" ++ Nat.repr now) = some s ∧
        s.questions = [q, { id := "q_2", text := t1, askedAt := now },
          { id := "q_3", text := t2, askedAt := now }] ∧
        s.questions.length = 3 := by
  have hp : p ∈ defaultRoleQuestions := List.mem_of_find?_eq_some hmatch
  have hlen : p.2.length = 2 := by
    have hall : ∀ x ∈ defaultRoleQuestions, x.2.length = 2 := by decide
    exact hall p hp
  obtain ⟨t1, t2, hp2⟩ := List.length_eq_two.1 hlen
  obtain ⟨kp0, hkp⟩ := genInitial_shape jparse
    ((InterviewSession.new ("s_" ++ Nat.repr now) role resume
      durationMin).startNow now) genResp now
  subst hr
  unfold createSessionHandler
  dsimp only
  rcases he : ((InterviewSession.new ("s_" ++ Nat.repr now) role resume
      durationMin).startNow now).generateInitialQuestion jparse genResp now
    with ⟨s1, q⟩
  rw [he] at hkp
  dsimp only at hkp
  subst hkp
  rw [hres, hmatch]
  dsimp only
  rw [hp2]
  refine ⟨q, t1, t2, rfl, ?_, ?_⟩
  · simp [InterviewSession.new, InterviewSession.startNow]
  · refine ⟨_, storeGet_set_self _ _ _, ?_, ?_⟩ <;>
      simp [InterviewSession.addQuestion, InterviewSession.new,
        InterviewSession.startNow, List.foldl_cons, List.foldl_nil] <;>
      decide

/-- Witness for C10: role "Backend Engineer" with a whitespace resume. -/
theorem C10_witness :
    jsTrim "   " = "" ∧
    ∃ q t1 t2, (defaultRoleQuestions.getD 1 ("", [])).2 = [t1, t2] ∧
      (createSessionHandler (fun _ => none) "Backend Engineer" "   " 18
        none 42 []).events =
        [ServerEvent.session_created ("s_" ++ Nat.repr 42) (some 42)
          (some (42 + 18 * 60000)) q] ∧
      ∃ s, storeGet (createSessionHandler (fun _ => none)
        "Backend Engineer" "   " 18 none 42 []).store
        ("s_" ++ Nat.repr 42) = some s ∧
        s.questions = [q, { id := "q_2", text := t1, askedAt := 42 },
          { id := "q_3", text := t2, askedAt := 42 }] ∧
        s.questions.length = 3 :=
  ⟨rfl, C10_empty_resume_appends_two_default_questions (fun _ => none)
    "Backend Engineer" "   " 18 none 42 []
    (defaultRoleQuestions.getD 1 ("", [])) _ rfl rfl rfl⟩

/-- `0 ≤ Math.round q` for non-negative `q`. -/
theorem jround_nonneg (q : ℚ) (h : 0 ≤ q) : 0 ≤ jround q := by
  unfold jround
  exact Int.le_floor.2 (by push_cast; linarith)

/-- The claim-side formula: `totalWords` is the number of whitespace
tokens of all transcripts joined by spaces. -/
def specTotalWords (answers : List LocalAnswer) : Nat :=
  (jsWords (String.intercalate " "
    (answers.map (fun a => a.transcript)))).length

/-- The claim-side formula: `avgWords = round(totalWords / answerCount)`
(the claim assumes a non-empty answer list). -/
def specAvgWords (answers : List LocalAnswer) : ℤ :=
  jround ((specTotalWords answers : ℚ) / answers.length)

/-- The claim-side formula: `keywordScore`, defaulting to 50 for a role
with no keywords. -/
def specKeywordScore (answers : List LocalAnswer) (role : String) : ℤ :=
  if (jsLookupKeywords role).length = 0 then 50
  else jround ((((jsLookupKeywords role).countP (fun k =>
    jsIncludes (jsToLower (String.intercalate " "
      (answers.map (fun a => a.transcript)))) k) : ℚ) /
    (jsLookupKeywords role).length) * 100)

/-- The claim-side formula:
`score = min(100, round(min(avgWords,120)/120 × 60 + keywordScore × 0.4))`. -/
def specScore (answers : List LocalAnswer) (role : String) : ℤ :=
  min 100 (jround ((min ((specAvgWords answers : ℤ) : ℚ) 120) / 120 * 60 +
    ((specKeywordScore answers role : ℤ) : ℚ) * (0.4 : ℚ)))

theorem tierString_iffs (sc : ℤ) :
    ((if sc ≥ 70 then "Proceed to next-round interview"
      else if sc ≥ 45 then "Consider technical coaching"
      else "Needs further development") =
      "Proceed to next-round interview" ↔ 70 ≤ sc) ∧
    ((if sc ≥ 70 then "Proceed to next-round interview"
      else if sc ≥ 45 then "Consider technical coaching"
      else "Needs further development") =
      "Consider technical coaching" ↔ (45 ≤ sc ∧ sc < 70)) ∧
    ((if sc ≥ 70 then "Proceed to next-round interview"
      else if sc ≥ 45 then "Consider technical coaching"
      else "Needs further development") =
      "Needs further development" ↔ sc < 45) := by
  split_ifs with h1 h2
  · exact ⟨⟨fun _ => h1, fun _ => rfl⟩,
      ⟨fun hc => absurd hc (by decide), fun hc => absurd hc (by omega)⟩,
      ⟨fun hc => absurd hc (by decide), fun hc => absurd hc (by omega)⟩⟩
  · exact ⟨⟨fun hc => absurd hc (by decide), fun hc => absurd hc (by omega)⟩,
      ⟨fun _ => ⟨h2, by omega⟩, fun _ => rfl⟩,
      ⟨fun hc => absurd hc (by decide), fun hc => absurd hc (by omega)⟩⟩
  · exact ⟨⟨fun hc => absurd hc (by decide), fun hc => absurd hc (by omega)⟩,
      ⟨fun hc => absurd hc (by decide), fun hc => absurd hc (by omega)⟩,
      ⟨fun _ => by omega, fun _ => rfl⟩⟩

/-- C4: for every role and non-empty answer list, `localAnalyze` returns
`score = min(100, round(min(avgWords,120)/120 × 60 + keywordScore × 0.4))`
with `avgWords = round(totalWords/answerCount)` and `keywordScore`
defaulting to 50 for a role with no keywords; the score lies in `[0,100]`,
and the recommendation text is the Proceed tier iff `score ≥ 70`, the
Coach tier iff `45 ≤ score < 70`, and the NeedsDevelopment tier iff
`score < 45`. -/
theorem C4_localAnalyze_score_formula_and_tiers (role : String)
    (answers : List LocalAnswer) (h : answers ≠ []) :
    (localAnalyze answers role).score = specScore answers role ∧
    0 ≤ (localAnalyze answers role).score ∧
    (localAnalyze answers role).score ≤ 100 ∧
    (jsLookupKeywords role = [] → specKeywordScore answers role = 50) ∧
    ((localAnalyze answers role).recommendation =
      "Proceed to next-round interview" ↔
      70 ≤ (localAnalyze answers role).score) ∧
    ((localAnalyze answers role).recommendation =
      "Consider technical coaching" ↔
      (45 ≤ (localAnalyze answers role).score ∧
        (localAnalyze answers role).score < 70)) ∧
    ((localAnalyze answers role).recommendation =
      "Needs further development" ↔
      (localAnalyze answers role).score < 45) := by
  have hne : answers.length ≠ 0 := fun hl => h (List.length_eq_zero.1 hl)
  have h04 : (0.4 : ℚ) = 2 / 5 := by norm_num
  unfold localAnalyze specScore specAvgWords specKeywordScore specTotalWords
  dsimp only
  simp only [ne_eq, ite_not, h04]
  rw [if_neg hne]
  have havg : (0 : ℤ) ≤ jround
      (((jsWords (String.intercalate " "
        (answers.map (fun a => a.transcript)))).length : ℚ) /
        (answers.length : ℚ)) :=
    jround_nonneg _ (by positivity)
  have hks : (0 : ℤ) ≤
      (if (jsLookupKeywords role).length = 0 then (50 : ℤ)
       else jround ((((jsLookupKeywords role).countP (fun k =>
        jsIncludes (jsToLower (String.intercalate " "
          (answers.map (fun a => a.transcript)))) k) : ℚ) /
        ((jsLookupKeywords role).length : ℚ)) * 100)) := by
    split_ifs with hk
    · norm_num
    · exact jround_nonneg _ (by positivity)
  refine ⟨rfl, ?_, ?_, ?_, ?_, ?_, ?_⟩
  · refine le_min (by norm_num) (jround_nonneg _ ?_)
    have h1 : (0 : ℚ) ≤ min ((jround
        (((jsWords (String.intercalate " "
          (answers.map (fun a => a.transcript)))).length : ℚ) /
          (answers.length : ℚ)) : ℤ) : ℚ) 120 :=
      le_min (by exact_mod_cast havg) (by norm_num)
    have h2 : (0 : ℚ) ≤
        ((if (jsLookupKeywords role).length = 0 then (50 : ℤ)
          else jround ((((jsLookupKeywords role).countP (fun k =>
            jsIncludes (jsToLower (String.intercalate " "
              (answers.map (fun a => a.transcript)))) k) : ℚ) /
            ((jsLookupKeywords role).length : ℚ)) * 100) : ℤ) : ℚ) := by
      exact_mod_cast hks
    have h3 : (0 : ℚ) ≤ min ((jround
        (((jsWords (String.intercalate " "
          (answers.map (fun a => a.transcript)))).length : ℚ) /
          (answers.length : ℚ)) : ℤ) : ℚ) 120 / 120 * 60 := by positivity
    linarith
  · exact min_le_left _ _
  · intro hk
    simp [hk]
  · exact (tierString_iffs _).1
  · exact (tierString_iffs _).2.1
  · exact (tierString_iffs _).2.2

/-- The spec scenario's answer list: one answer
"I used caching and SQL to reduce latency". -/
def demoLocalAnswers : List LocalAnswer :=
  [{ questionId := some "q_1",
     transcript := "I used caching and SQL to reduce latency" }]

/-- Witness for C4, at the spec's own scenario: one answer
"I used caching and SQL to reduce latency" for role "Backend Engineer". -/
theorem C4_witness :
    demoLocalAnswers ≠ [] ∧
    (localAnalyze demoLocalAnswers "Backend Engineer").score =
      specScore demoLocalAnswers "Backend Engineer" ∧
    0 ≤ (localAnalyze demoLocalAnswers "Backend Engineer").score ∧
    (localAnalyze demoLocalAnswers "Backend Engineer").score ≤ 100 :=
  ⟨by simp [demoLocalAnswers],
   (C4_localAnalyze_score_formula_and_tiers "Backend Engineer"
     demoLocalAnswers (by simp [demoLocalAnswers])).1,
   (C4_localAnalyze_score_formula_and_tiers "Backend Engineer"
     demoLocalAnswers (by simp [demoLocalAnswers])).2.1,
   (C4_localAnalyze_score_formula_and_tiers "Backend Engineer"
     demoLocalAnswers (by simp [demoLocalAnswers])).2.2.1⟩

/-- The Interview component's initial state relevant to the turn cycle,
with a dead socket (pure local fallback mode). -/
def initialClientState (role : String) : ClientState :=
  { role := role, socketConnected := false, sessionId := none,
    sessionActive := false, interviewFinished := false,
    currentQuestion := none, localQuestions := [], localIndex := 0,
    localAnswers := [], result := none, followupTimerArmed := false,
    analyzeCount := 0 }

/-- Successive `onresult` captures folded over the client state. -/
def runAnswers (st : ClientState) (ts : List String) : ClientState :=
  ts.foldl (fun s t => (onAnswerCaptured s t).1) st

theorem startsWithList_append (p rest : List Char) :
    startsWithList p (p ++ rest) = true := by
  induction p with
  | nil => rfl
  | cons c cs ih => simp [startsWithList, ih]

theorem jsStartsWith_append (p rest : String) :
    jsStartsWith (p ++ rest) p = true := by
  unfold jsStartsWith
  have hdata : (p ++ rest).toList = p.toList ++ rest.toList :=
    String.data_append p rest
  rw [hdata]
  exact startsWithList_append _ _

theorem localRun_aux : ∀ (ts : List String) (st : ClientState),
    st.socketConnected = false →
    jsStartsWith (st.sessionId.getD "") "local-" = true →
    st.localIndex + ts.length = st.localQuestions.length →
    ts ≠ [] →
    (runAnswers st ts).analyzeCount = st.analyzeCount + 1 ∧
    (runAnswers st ts).interviewFinished = true ∧
    (runAnswers st ts).sessionActive = false ∧
    (runAnswers st ts).localAnswers.length =
      st.localAnswers.length + ts.length ∧
    (runAnswers st ts).result = some
      (localAnalyze (runAnswers st ts).localAnswers
        (if st.role = "" then "Unknown" else st.role)) := by
  intro ts
  induction ts with
  | nil => intro st _ _ _ hne; exact absurd rfl hne
  | cons t rest ih =>
    intro st hsock hloc hlen _
    cases rest with
    | nil =>
      have hnlt : ¬ (st.localIndex + 1 < st.localQuestions.length) := by
        simp at hlen
        omega
      have hstep : (onAnswerCaptured st t).1 = { st with
          localAnswers := st.localAnswers ++
            [{ questionId := st.currentQuestion.map (fun q => q.id),
               transcript := t }],
          interviewFinished := true, sessionActive := false,
          result := some (localAnalyze (st.localAnswers ++
            [{ questionId := st.currentQuestion.map (fun q => q.id),
               transcript := t }])
            (if st.role = "" then "Unknown" else st.role)),
          analyzeCount := st.analyzeCount + 1 } := by
        simp [onAnswerCaptured, hsock, hloc, hnlt]
      have hrun : runAnswers st [t] = (onAnswerCaptured st t).1 := rfl
      rw [hrun, hstep]
      refine ⟨rfl, rfl, rfl, by simp, rfl⟩
    | cons t2 rest2 =>
      have hlt : st.localIndex + 1 < st.localQuestions.length := by
        simp at hlen
        omega
      have hstep : (onAnswerCaptured st t).1 = { st with
          localAnswers := st.localAnswers ++
            [{ questionId := st.currentQuestion.map (fun q => q.id),
               transcript := t }],
          localIndex := st.localIndex + 1,
          currentQuestion := some (st.localQuestions.getD
            (st.localIndex + 1) undefinedCQuestion) } := by
        simp [onAnswerCaptured, hsock, hloc, hlt]
      have hrun : runAnswers st (t :: t2 :: rest2) =
          runAnswers ((onAnswerCaptured st t).1) (t2 :: rest2) := rfl
      rw [hrun, hstep]
      have hres := ih ({ st with
          localAnswers := st.localAnswers ++
            [{ questionId := st.currentQuestion.map (fun q => q.id),
               transcript := t }],
          localIndex := st.localIndex + 1,
          currentQuestion := some (st.localQuestions.getD
            (st.localIndex + 1) undefinedCQuestion) })
        hsock hloc (by simp at hlen ⊢; omega) (by simp)
      refine ⟨?_, hres.2.1, hres.2.2.1, ?_, ?_⟩
      · rw [hres.1]
      · rw [hres.2.2.2.1]
        simp
        omega
      · rw [hres.2.2.2.2]

/-- C8: in local fallback mode, starting a session for a role whose bank
has `n` entries and capturing exactly `n` answers through `onresult` runs
`localAnalyze` exactly once (over the `n` captured answers) and
transitions to the completed state: `interviewFinished` set, the session
no longer active, and the result holding the heuristic recommendation. -/
theorem C8_local_mode_completion (role : String) (now : Nat)
    (ts : List String)
    (hlen : ts.length = (jsLookupBank role).length)
    (hne : ts ≠ []) :
    (runAnswers (startSessionLocal (initialClientState role) now).1
      ts).analyzeCount = 1 ∧
    (runAnswers (startSessionLocal (initialClientState role) now).1
      ts).interviewFinished = true ∧
    (runAnswers (startSessionLocal (initialClientState role) now).1
      ts).sessionActive = false ∧
    (runAnswers (startSessionLocal (initialClientState role) now).1
      ts).localAnswers.length = ts.length ∧
    (runAnswers (startSessionLocal (initialClientState role) now).1
      ts).result = some (localAnalyze
        (runAnswers (startSessionLocal (initialClientState role) now).1
          ts).localAnswers
        (if role = "" then "Unknown" else role)) := by
  have h := localRun_aux ts
    (startSessionLocal (initialClientState role) now).1
    (by simp [startSessionLocal, initialClientState])
    (by
      simp only [startSessionLocal, initialClientState]
      exact jsStartsWith_append "local-" (Nat.repr now))
    (by simp [startSessionLocal, initialClientState, hlen])
    hne
  simpa [startSessionLocal, initialClientState] using h

/-- Witness for C8, at the spec's own scenario: `QuestionBank["QA
Engineer"]` has 12 entries and 12 captured answers complete the session
with exactly one scorer run. -/
theorem C8_witness :
    (["a1", "a2", "a3", "a4", "a5", "a6", "a7", "a8", "a9", "a10", "a11",
      "a12"].length = (jsLookupBank "QA Engineer").length) ∧
    (runAnswers (startSessionLocal (initialClientState "QA Engineer")
      3).1 ["a1", "a2", "a3", "a4", "a5", "a6", "a7", "a8", "a9", "a10",
      "a11", "a12"]).analyzeCount = 1 ∧
    (runAnswers (startSessionLocal (initialClientState "QA Engineer")
      3).1 ["a1", "a2", "a3", "a4", "a5", "a6", "a7", "a8", "a9", "a10",
      "a11", "a12"]).interviewFinished = true ∧
    (runAnswers (startSessionLocal (initialClientState "QA Engineer")
      3).1 ["a1", "a2", "a3", "a4", "a5", "a6", "a7", "a8", "a9", "a10",
      "a11", "a12"]).sessionActive = false :=
  ⟨rfl,
   (C8_local_mode_completion "QA Engineer" 3 _ rfl (by simp)).1,
   (C8_local_mode_completion "QA Engineer" 3 _ rfl (by simp)).2.1,
   (C8_local_mode_completion "QA Engineer" 3 _ rfl (by simp)).2.2.1⟩

/-- C7 (amended): when the 5-second follow-up watchdog fires, the
orchestrator seeds the local question state from the role's bank if it is
not already seeded, then advances exactly one question and speaks the bank
question at the new cursor *provided the bank still has a next entry*;
when the cursor is already at the bank's end it leaves the cursor
unchanged and speaks a closing line instead.  In every case the
outstanding remote session is untouched — `sessionId`, `sessionActive`,
`socketConnected` and `interviewFinished` keep their values — the fired
timeout is no longer pending, and an arriving `followup` event clears the
watchdog timer. -/
theorem C7_amended_watchdog_fire_behaviour (st : ClientState)
    (f : Option CQuestion) :
    (followupWatchdogFire st).1.sessionId = st.sessionId ∧
    (followupWatchdogFire st).1.sessionActive = st.sessionActive ∧
    (followupWatchdogFire st).1.socketConnected = st.socketConnected ∧
    (followupWatchdogFire st).1.interviewFinished = st.interviewFinished ∧
    (followupWatchdogFire st).1.localAnswers = st.localAnswers ∧
    (followupWatchdogFire st).1.followupTimerArmed = false ∧
    (followupWatchdogFire st).1.localQuestions =
      (if st.localQuestions.isEmpty then jsLookupBank st.role
       else st.localQuestions) ∧
    (followupWatchdogFire st).1.localIndex =
      (if (if st.localQuestions.isEmpty then 0 else st.localIndex) + 1 <
          (if st.localQuestions.isEmpty then jsLookupBank st.role
           else st.localQuestions).length
       then (if st.localQuestions.isEmpty then 0 else st.localIndex) + 1
       else (if st.localQuestions.isEmpty then 0 else st.localIndex)) ∧
    (followupWatchdogFire st).2 =
      (if (if st.localQuestions.isEmpty then 0 else st.localIndex) + 1 <
          (if st.localQuestions.isEmpty then jsLookupBank st.role
           else st.localQuestions).length
       then [ClientAction.speakQuestion
          ((if st.localQuestions.isEmpty then jsLookupBank st.role
            else st.localQuestions).getD
            ((if st.localQuestions.isEmpty then 0 else st.localIndex) + 1)
            undefinedCQuestion).text]
       else [ClientAction.speakPlain
          "I have no further questions at this time."]) ∧
    (onFollowup st f).1.followupTimerArmed = false := by
  have hof : (onFollowup st f).1.followupTimerArmed = false := by
    unfold onFollowup
    cases f with
    | none => rfl
    | some q =>
      by_cases hq : q.text ≠ ""
      · simp [hq]
      · simp [hq]
  unfold followupWatchdogFire
  dsimp only
  by_cases hemp : st.localQuestions.isEmpty = true
  · simp only [if_pos hemp]
    by_cases hlt : 0 + 1 < (jsLookupBank st.role).length
    · simp only [if_pos hlt]
      refine ⟨?_, ?_, ?_, ?_, ?_, ?_, ?_, ?_, ?_, hof⟩ <;> trivial
    · simp only [if_neg hlt]
      refine ⟨?_, ?_, ?_, ?_, ?_, ?_, ?_, ?_, ?_, hof⟩ <;> trivial
  · simp only [if_neg hemp]
    by_cases hlt : st.localIndex + 1 < st.localQuestions.length
    · simp only [if_pos hlt]
      refine ⟨?_, ?_, ?_, ?_, ?_, ?_, ?_, ?_, ?_, hof⟩ <;> trivial
    · simp only [if_neg hlt]
      refine ⟨?_, ?_, ?_, ?_, ?_, ?_, ?_, ?_, ?_, hof⟩ <;> trivial

/-- A remote-mode client state whose seeded local bank (QA Engineer, 12
entries) is exhausted: the cursor already sits on the last entry when the
watchdog fires. -/
def demoWatchdogState : ClientState :=
  { role := "QA Engineer", socketConnected := true,
    sessionId := some "s_9", sessionActive := true,
    interviewFinished := false,
    currentQuestion := some { id := "q12", text := "Describe a testing strategy for an API-first product." },
    localQuestions := jsLookupBank "QA Engineer", localIndex := 11,
    localAnswers := [], result := none, followupTimerArmed := true,
    analyzeCount := 0 }

/-- C7 (counterexample): with the QA Engineer bank seeded and its cursor
at the last entry, a watchdog firing does *not* advance the cursor and
does *not* speak a question from the local bank — it speaks the closing
line — refuting the claim that every firing advances exactly one question
and speaks a bank question. -/
theorem C7_counterexample :
    demoWatchdogState.localIndex = 11 ∧
    demoWatchdogState.localIndex + 1 =
      demoWatchdogState.localQuestions.length ∧
    (followupWatchdogFire demoWatchdogState).1.localIndex = 11 ∧
    (followupWatchdogFire demoWatchdogState).2 =
      [ClientAction.speakPlain
        "I have no further questions at this time."] ∧
    (∀ q ∈ demoWatchdogState.localQuestions,
      (followupWatchdogFire demoWatchdogState).2 ≠
        [ClientAction.speakQuestion q.text]) := by
  decide

end InterVue










